import Mathlib

/-!
Verification of the TermuxBridge client (`bridge.py`) and its mock dispatcher
(`mock_server.py`).  The Python code is shallowly embedded: the HTTP transport
is an oracle function from requests to results, `BridgeError` exceptions are an
abstract error type threaded through `Except`, the wall clock read by
`time.time()` is an oracle from read-index to a rational time stamp, and the
loops of `wait_for_element` / `scroll_to_text` are fuel-indexed recursions that
also report how many `find_element` calls, swipes and sleeps were performed.
-/

namespace Bridge

/-- Scalar values carried in a command's `params` mapping. -/
inductive PValue where
  | str (s : String)
  | int (n : Int)
deriving DecidableEq, Repr

/-- A `params` mapping, kept as an insertion-ordered association list, the way
the Python code builds its dictionaries. -/
abbrev Params := List (String × PValue)

/-- Keys of a params mapping, in insertion order. -/
def Params.keys (p : Params) : List String := p.map Prod.fst

/-- The JSON body sent to the `/cmd` endpoint by `_send_command`:
`\x7b"action": action, "params": params\x7d`. -/
structure CmdPayload where
  action : String
  params : Params
deriving DecidableEq, Repr

/-- An HTTP exchange issued by `_request`: the path and, for POST, a payload.
GET requests (`/ping`, `/status`) carry no payload. -/
structure Request where
  path : String
  payload : Option CmdPayload
deriving DecidableEq, Repr

/-- Embeds `TermuxBridge._send_command`: wraps the action and the params
(defaulting to the empty mapping, as `params or \x7b\x7d` does) into the `/cmd`
envelope and forwards it through the transport, returning the transport's
answer unchanged — `success` is never inspected here. -/
def sendCommand {ρ : Type} (transport : Request → ρ) (action : String)
    (params : Option Params) : ρ :=
  transport ⟨"/cmd", some ⟨action, params.getD []⟩⟩

/-- Embeds `TermuxBridge.ping`: a GET exchange on `/ping`. -/
def pingOp {ρ : Type} (transport : Request → ρ) : ρ :=
  transport ⟨"/ping", none⟩

/-- Embeds `TermuxBridge.status`: a GET exchange on `/status`. -/
def statusOp {ρ : Type} (transport : Request → ρ) : ρ :=
  transport ⟨"/status", none⟩

/-! ### The UI hierarchy and its flattening (`_extract_clickable`) -/

/-- A bounds rectangle; `_extract_clickable` copies it verbatim and never looks
inside, so the exact field set is irrelevant to the claims. -/
structure Bounds where
  left : Int
  top : Int
  right : Int
  bottom : Int
deriving DecidableEq, Repr

/-- A node of the dumped UI tree.  String-valued and bounds fields may be
absent in the JSON (the code reads them with `node.get(key, default)`), hence
the `Option`s; `clickable` / `scrollable` are read for truthiness only, so a
`Bool` (with `false` standing for an absent key) is faithful. -/
inductive ElementNode where
  | mk (text resourceId className desc : Option String)
       (bounds : Option Bounds)
       (clickable scrollable : Bool)
       (children : List ElementNode)

def ElementNode.text : ElementNode → Option String
  | .mk t _ _ _ _ _ _ _ => t

def ElementNode.resourceId : ElementNode → Option String
  | .mk _ r _ _ _ _ _ _ => r

def ElementNode.className : ElementNode → Option String
  | .mk _ _ c _ _ _ _ _ => c

def ElementNode.bounds : ElementNode → Option Bounds
  | .mk _ _ _ _ b _ _ _ => b

def ElementNode.clickable : ElementNode → Bool
  | .mk _ _ _ _ _ cl _ _ => cl

def ElementNode.scrollable : ElementNode → Bool
  | .mk _ _ _ _ _ _ sc _ => sc

def ElementNode.children : ElementNode → List ElementNode
  | .mk _ _ _ _ _ _ _ ch => ch

/-- The test `node.get("clickable") or node.get("scrollable")`. -/
def ElementNode.actionable (n : ElementNode) : Bool :=
  n.clickable || n.scrollable

/-- The projection appended by `_extract_clickable` for a qualifying node:
text, resourceId, className, bounds, clickable, scrollable, with the defaults
the `node.get(key, default)` calls supply. -/
structure ActionableElement where
  text : String
  resourceId : String
  className : String
  bounds : Option Bounds
  clickable : Bool
  scrollable : Bool
deriving DecidableEq, Repr

/-- The dictionary literal built inside `_extract_clickable`. -/
def projectNode (n : ElementNode) : ActionableElement :=
  ⟨n.text.getD "", n.resourceId.getD "", n.className.getD "",
   n.bounds, n.clickable, n.scrollable⟩

mutual
/-- Embeds `TermuxBridge._extract_clickable`: append the projection of the
current node when it is clickable or scrollable, then recurse into the
children in order.  The Python version mutates an accumulator list; the
functional reading returns the appended segment. -/
def extractClickable : ElementNode → List ActionableElement
  | n@(.mk _ _ _ _ _ _ _ children) =>
      (if n.clickable || n.scrollable then [projectNode n] else []) ++
        extractClickableList children

/-- The `for child in node.get("children", [])` loop of `_extract_clickable`. -/
def extractClickableList : List ElementNode → List ActionableElement
  | [] => []
  | c :: cs => extractClickable c ++ extractClickableList cs
end

/-- The `if not node: return` guard: a null / absent root contributes
nothing. -/
def extractClickableOpt : Option ElementNode → List ActionableElement
  | none => []
  | some n => extractClickable n

mutual
/-- Specification-side pre-order listing of a tree's nodes: parent first, then
the children's listings in sibling order. -/
def preorder : ElementNode → List ElementNode
  | n@(.mk _ _ _ _ _ _ _ children) => n :: preorderList children

/-- Pre-order listing of a forest, in order. -/
def preorderList : List ElementNode → List ElementNode
  | [] => []
  | c :: cs => preorder c ++ preorderList cs
end

/-- Pre-order listing below an optional root. -/
def preorderOpt : Option ElementNode → List ElementNode
  | none => []
  | some n => preorder n

mutual
theorem extractClickable_eq_filter : ∀ n : ElementNode,
    extractClickable n = ((preorder n).filter ElementNode.actionable).map projectNode
  | .mk t r c d b cl sc children => by
      rw [extractClickable, preorder, List.filter_cons]
      rw [extractClickableList_eq_filter children]
      by_cases h : (ElementNode.mk t r c d b cl sc children).clickable ||
          (ElementNode.mk t r c d b cl sc children).scrollable
      · simp [ElementNode.actionable, h]
      · simp [ElementNode.actionable, h]

theorem extractClickableList_eq_filter : ∀ l : List ElementNode,
    extractClickableList l = ((preorderList l).filter ElementNode.actionable).map projectNode
  | [] => rfl
  | c :: cs => by
      rw [extractClickableList, preorderList, List.filter_append, List.map_append,
        extractClickable_eq_filter c, extractClickableList_eq_filter cs]
end

/-- C1: the `_extract_clickable` traversal of any (acyclic) ElementNode tree
outputs exactly the projections of the nodes whose `clickable` or `scrollable`
flag is set, each exactly once, in pre-order (parent before children, siblings
in original order); a null / absent root yields the empty sequence. -/
theorem extract_clickable_preorder_spec :
    (∀ n : ElementNode,
        extractClickable n =
          ((preorder n).filter ElementNode.actionable).map projectNode) ∧
      extractClickableOpt none = [] :=
  ⟨extractClickable_eq_filter, rfl⟩

/-! ### Retry / polling controllers -/

/-- Outcome oracle for the successive `find_element` calls a controller makes:
for the i-th call, either the truthiness of `result.get("success")`, or the
`BridgeError` (abstract error type `E`) the request layer raised during it. -/
abbrev FindOracle (E : Type) := Nat → Except E Bool

/-- The `for _ in range(max_swipes)` loop of `scroll_to_text`, at loop index
`i` with `fuel` iterations left: call `find_element`; on success return true
at once, otherwise `swipe_up()` and `wait(0.5)` and continue.  The result also
carries the number of `find_element` calls made and of swipes performed; a
raised `BridgeError` propagates as `Except.error`. -/
def scrollAux {E : Type} (find : FindOracle E) :
    Nat → Nat → Except E (Bool × Nat × Nat)
  | 0, i => .ok (false, i, i)
  | fuel + 1, i =>
    match find i with
    | .error e => .error e
    | .ok true => .ok (true, i + 1, i)
    | .ok false => scrollAux find fuel (i + 1)

/-- Embeds `TermuxBridge.scroll_to_text` (whose default `max_swipes` is 10). -/
def scrollToText {E : Type} (find : FindOracle E) (maxSwipes : Nat) :
    Except E (Bool × Nat × Nat) :=
  scrollAux find maxSwipes 0

/-- Wall-clock oracle: the value `time.time()` returns at the i-th evaluation
of the `while` guard of `wait_for_element`. -/
abbrev Clock := Nat → ℚ

/-- The `while time.time() - start_time < timeout` loop of `wait_for_element`
at loop index `i`: if the guard holds, call `find_element`; on success return
true at once, otherwise `time.sleep(interval)` and loop; if the guard fails,
return false.  The result carries the number of `find_element` calls and of
interval sleeps; `none` means the fuel ran out before the loop decided. -/
def waitAux {E : Type} (timeout startTime : ℚ) (clock : Clock)
    (find : FindOracle E) : Nat → Nat → Option (Except E (Bool × Nat × Nat))
  | 0, _ => none
  | fuel + 1, i =>
    if clock i - startTime < timeout then
      match find i with
      | .error e => some (.error e)
      | .ok true => some (.ok (true, i + 1, i))
      | .ok false => waitAux timeout startTime clock find fuel (i + 1)
    else some (.ok (false, i, i))

/-- Embeds `TermuxBridge.wait_for_element` (defaults: `timeout = 10` seconds,
`interval = 1.0`); `startTime` is the initial `time.time()` reading. -/
def waitForElement {E : Type} (timeout startTime : ℚ) (clock : Clock)
    (find : FindOracle E) (fuel : Nat) : Option (Except E (Bool × Nat × Nat)) :=
  waitAux timeout startTime clock find fuel 0

theorem scrollAux_all_false {E : Type} (find : FindOracle E) (n : Nat) :
    ∀ i, (∀ j, j < n → find (i + j) = Except.ok false) →
      scrollAux find n i = Except.ok (false, i + n, i + n) := by
  induction n with
  | zero => intro i _; simp [scrollAux]
  | succ n ih =>
      intro i h
      have h0 : find i = Except.ok false := by simpa using h 0 n.succ_pos
      have h1 := ih (i + 1) (fun j hj => by
        have := h (j + 1) (Nat.succ_lt_succ hj)
        simpa [Nat.add_assoc, Nat.add_comm 1 j] using this)
      have h2 : i + 1 + n = i + (n + 1) := by omega
      rw [h2] at h1
      simp [scrollAux, h0, h1]

theorem scrollAux_first_true {E : Type} (find : FindOracle E) :
    ∀ k n i, k < n → (∀ j, j < k → find (i + j) = Except.ok false) →
      find (i + k) = Except.ok true →
      scrollAux find n i = Except.ok (true, i + k + 1, i + k) := by
  intro k
  induction k with
  | zero =>
      intro n i hk _ hsucc
      match n, hk with
      | n + 1, _ =>
        have h0 : find i = Except.ok true := by simpa using hsucc
        simp [scrollAux, h0]
  | succ k ih =>
      intro n i hk hfail hsucc
      match n, hk with
      | n + 1, hk =>
        have h0 : find i = Except.ok false := by simpa using hfail 0 k.succ_pos
        have h1 := ih n (i + 1) (by omega)
          (fun j hj => by
            have := hfail (j + 1) (Nat.succ_lt_succ hj)
            simpa [Nat.add_assoc, Nat.add_comm 1 j] using this)
          (by
            have h2 : i + 1 + k = i + (k + 1) := by omega
            rw [h2]; exact hsucc)
        have h3 : i + 1 + k = i + (k + 1) := by omega
        rw [h3] at h1
        simp [scrollAux, h0, h1]

theorem scrollAux_counts {E : Type} (find : FindOracle E) :
    ∀ n i b f s, scrollAux find n i = Except.ok (b, f, s) →
      f ≤ i + n ∧ s ≤ i + n := by
  intro n
  induction n with
  | zero =>
      intro i b f s h
      simp [scrollAux] at h
      omega
  | succ n ih =>
      intro i b f s h
      rw [scrollAux] at h
      cases hf : find i with
      | error e => rw [hf] at h; simp at h
      | ok v =>
          rw [hf] at h
          cases v with
          | true => simp at h; omega
          | false =>
              simp at h
              have := ih (i + 1) b f s h
              omega

/-- C2: `scroll_to_text` performs at most `maxSwipes` find/swipe cycles and
returns false (having made `maxSwipes` find calls and `maxSwipes` swipes) when
no `find_element` call reports success; if the k-th find call (1 ≤ k ≤
maxSwipes) is the first to report success, it returns true immediately having
performed exactly k − 1 swipes. -/
theorem scroll_to_text_spec {E : Type} (find : FindOracle E) (m : Nat) :
    ((∀ i, i < m → find i = Except.ok false) →
        scrollToText find m = Except.ok (false, m, m)) ∧
    (∀ k, 1 ≤ k → k ≤ m → (∀ i, i < k - 1 → find i = Except.ok false) →
        find (k - 1) = Except.ok true →
        scrollToText find m = Except.ok (true, k, k - 1)) ∧
    (∀ b f s, scrollToText find m = Except.ok (b, f, s) → f ≤ m ∧ s ≤ m) := by
  refine ⟨fun h => ?_, fun k hk1 hkm hfail hsucc => ?_, fun b f s h => ?_⟩
  · have := scrollAux_all_false find m 0 (fun j hj => by simpa using h j hj)
    simpa [scrollToText] using this
  · have := scrollAux_first_true find (k - 1) m 0 (by omega)
      (fun j hj => by simpa using hfail j hj) (by simpa using hsucc)
    have h1 : 0 + (k - 1) + 1 = k := by omega
    have h2 : 0 + (k - 1) = k - 1 := by omega
    rw [h1, h2] at this
    simpa [scrollToText] using this
  · have := scrollAux_counts find m 0 b f s (by simpa [scrollToText] using h)
    omega

/-- Sample oracle: every `find_element` call reports `success: false`. -/
def findNever : FindOracle Unit := fun _ => Except.ok false

/-- Sample oracle: the `find_element` call of index 1 (the second call)
reports `success: true`, earlier ones report false. -/
def findSecond : FindOracle Unit := fun i => Except.ok (decide (i = 1))

theorem scroll_to_text_spec_witness :
    ((∀ i, i < 3 → findNever i = Except.ok false) ∧
      scrollToText findNever 3 = Except.ok (false, 3, 3)) ∧
    ((1 : Nat) ≤ 2 ∧ (2 : Nat) ≤ 3 ∧
      (∀ i, i < 2 - 1 → findSecond i = Except.ok false) ∧
      findSecond (2 - 1) = Except.ok true ∧
      scrollToText findSecond 3 = Except.ok (true, 2, 2 - 1)) :=
  ⟨⟨fun _ _ => rfl, (scroll_to_text_spec findNever 3).1 (fun _ _ => rfl)⟩,
   ⟨by omega, by omega,
    (fun i hi => by
      have h0 : i = 0 := by omega
      subst h0; rfl),
    rfl,
    (scroll_to_text_spec findSecond 3).2.1 2 (by omega) (by omega)
      (fun i hi => by
        have h0 : i = 0 := by omega
        subst h0; rfl)
      rfl⟩⟩

theorem waitAux_skip {E : Type} (timeout startTime : ℚ) (clock : Clock)
    (find : FindOracle E) :
    ∀ k fuel i, k ≤ fuel →
      (∀ j, j < k →
        clock (i + j) - startTime < timeout ∧ find (i + j) = Except.ok false) →
      waitAux timeout startTime clock find fuel i =
        waitAux timeout startTime clock find (fuel - k) (i + k) := by
  intro k
  induction k with
  | zero => intro fuel i _ _; simp
  | succ k ih =>
      intro fuel i hk h
      match fuel, hk with
      | fuel + 1, hk =>
        have h0 : clock i - startTime < timeout ∧ find i = Except.ok false := by
          simpa using h 0 k.succ_pos
        have h1 := ih fuel (i + 1) (by omega) (fun j hj => by
          have := h (j + 1) (Nat.succ_lt_succ hj)
          simpa [Nat.add_assoc, Nat.add_comm 1 j] using this)
        have h2 : i + 1 + k = i + (k + 1) := by omega
        have h3 : fuel + 1 - (k + 1) = fuel - k := by omega
        rw [h2] at h1
        rw [waitAux, if_pos h0.1, h0.2, h3]
        exact h1

/-- C3: while the elapsed-time guard holds, `wait_for_element` issues one
`find_element` call per iteration; the first call reporting `success: true`
makes it return true at once (k earlier failures give k + 1 find calls and k
sleeps, none after the success); if every call fails until the guard fails at
reading m, it returns false after exactly m find calls and m interval sleeps —
in particular the sleep also follows the final failed check, before the guard
is re-evaluated. -/
theorem wait_for_element_spec {E : Type} (timeout startTime : ℚ) (clock : Clock)
    (find : FindOracle E) :
    (∀ k fuel, k < fuel →
        (∀ j, j < k →
          clock j - startTime < timeout ∧ find j = Except.ok false) →
        clock k - startTime < timeout → find k = Except.ok true →
        waitForElement timeout startTime clock find fuel =
          some (Except.ok (true, k + 1, k))) ∧
    (∀ m fuel, m < fuel →
        (∀ j, j < m →
          clock j - startTime < timeout ∧ find j = Except.ok false) →
        ¬ clock m - startTime < timeout →
        waitForElement timeout startTime clock find fuel =
          some (Except.ok (false, m, m))) := by
  constructor
  · intro k fuel hk h hguard hsucc
    have hskip := waitAux_skip timeout startTime clock find k fuel 0
      (Nat.le_of_lt hk) (fun j hj => by simpa using h j hj)
    have hf : fuel - k = (fuel - k - 1) + 1 := by omega
    rw [waitForElement, hskip, Nat.zero_add, hf, waitAux, if_pos hguard, hsucc]
  · intro m fuel hm h hguard
    have hskip := waitAux_skip timeout startTime clock find m fuel 0
      (Nat.le_of_lt hm) (fun j hj => by simpa using h j hj)
    have hf : fuel - m = (fuel - m - 1) + 1 := by omega
    rw [waitForElement, hskip, Nat.zero_add, hf, waitAux, if_neg hguard]

/-- Sample clock: the i-th guard reading returns i seconds. -/
def clockSeconds : Clock := fun i => (i : ℚ)

theorem wait_for_element_spec_witness :
    ((∀ j, j < 1 →
        clockSeconds j - 0 < 2 ∧ findSecond j = Except.ok false) ∧
      clockSeconds 1 - 0 < 2 ∧ findSecond 1 = Except.ok true ∧
      waitForElement 2 0 clockSeconds findSecond 5 =
        some (Except.ok (true, 2, 1))) ∧
    ((∀ j, j < 2 →
        clockSeconds j - 0 < 2 ∧ findNever j = Except.ok false) ∧
      ¬ clockSeconds 2 - 0 < 2 ∧
      waitForElement 2 0 clockSeconds findNever 5 =
        some (Except.ok (false, 2, 2))) := by
  have hfail : ∀ j, j < 1 →
      clockSeconds j - 0 < 2 ∧ findSecond j = Except.ok false := by
    intro j hj
    have h0 : j = 0 := by omega
    subst h0
    exact ⟨by norm_num [clockSeconds], rfl⟩
  have hfail2 : ∀ j, j < 2 →
      clockSeconds j - 0 < 2 ∧ findNever j = Except.ok false := by
    intro j hj
    refine ⟨?_, rfl⟩
    have h0 : j = 0 ∨ j = 1 := by omega
    rcases h0 with h0 | h0 <;> subst h0 <;> norm_num [clockSeconds]
  have hguard2 : ¬ clockSeconds 2 - 0 < 2 := by norm_num [clockSeconds]
  exact ⟨⟨hfail, by norm_num [clockSeconds], rfl,
      (wait_for_element_spec 2 0 clockSeconds findSecond).1 1 5 (by omega)
        hfail (by norm_num [clockSeconds]) rfl⟩,
    ⟨hfail2, hguard2,
      (wait_for_element_spec 2 0 clockSeconds findNever).2 2 5 (by omega)
        hfail2 hguard2⟩⟩

/-- Outcome oracle for the `swipe_up()` call a failed `scroll_to_text`
iteration makes: that call goes through `_request` too, so the i-th swipe
either completes or raises a `BridgeError`.  (The `wait(0.5)` that follows is
a plain `time.sleep` and cannot raise.) -/
abbrev SwipeOracle (E : Type) := Nat → Except E Unit

/-- The `for _ in range(max_swipes)` loop of `scroll_to_text` with both of its
request-layer calls fallible: call `find_element`; on success return true at
once; otherwise call `swipe_up()` — whose raised `BridgeError` also aborts the
call — then `wait(0.5)` and continue.  The result carries the number of
`find_element` calls made and of swipes completed. -/
def scrollAuxE {E : Type} (find : FindOracle E) (swipe : SwipeOracle E) :
    Nat → Nat → Except E (Bool × Nat × Nat)
  | 0, i => .ok (false, i, i)
  | fuel + 1, i =>
    match find i with
    | .error e => .error e
    | .ok true => .ok (true, i + 1, i)
    | .ok false =>
      match swipe i with
      | .error e => .error e
      | .ok _ => scrollAuxE find swipe fuel (i + 1)

/-- Embeds `TermuxBridge.scroll_to_text` with the fallible swipe step kept. -/
def scrollToTextE {E : Type} (find : FindOracle E) (swipe : SwipeOracle E)
    (maxSwipes : Nat) : Except E (Bool × Nat × Nat) :=
  scrollAuxE find swipe maxSwipes 0

/-- When no swipe ever raises, the fallible-swipe embedding coincides with
`scrollAux`, so the two readings of the loop agree on every error-free run. -/
theorem scrollAuxE_no_swipe_error {E : Type} (find : FindOracle E) :
    ∀ fuel i, scrollAuxE find (fun _ => Except.ok ()) fuel i =
      scrollAux find fuel i := by
  intro fuel
  induction fuel with
  | zero => intro i; rfl
  | succ fuel ih =>
      intro i
      cases hf : find i with
      | error e => simp [scrollAuxE, scrollAux, hf]
      | ok v => cases v <;> simp [scrollAuxE, scrollAux, hf, ih]

theorem scrollAuxE_skip {E : Type} (find : FindOracle E) (swipe : SwipeOracle E) :
    ∀ k fuel i, k ≤ fuel →
      (∀ j, j < k →
        find (i + j) = Except.ok false ∧ swipe (i + j) = Except.ok ()) →
      scrollAuxE find swipe fuel i =
        scrollAuxE find swipe (fuel - k) (i + k) := by
  intro k
  induction k with
  | zero => intro fuel i _ _; simp
  | succ k ih =>
      intro fuel i hk h
      match fuel, hk with
      | fuel + 1, hk =>
        have h0 : find i = Except.ok false ∧ swipe i = Except.ok () := by
          simpa using h 0 k.succ_pos
        have h1 := ih fuel (i + 1) (by omega) (fun j hj => by
          have := h (j + 1) (Nat.succ_lt_succ hj)
          simpa [Nat.add_assoc, Nat.add_comm 1 j] using this)
        have h2 : i + 1 + k = i + (k + 1) := by omega
        have h3 : fuel + 1 - (k + 1) = fuel - k := by omega
        rw [h2] at h1
        simp only [scrollAuxE, h0.1, h0.2, h3]
        exact h1

/-- C4: a transport-level `BridgeError` raised by the request layer during any
single attempt of `wait_for_element` or `scroll_to_text` propagates to the
caller and aborts the whole call (the result is the error itself, not a
retried "not found" outcome).  For `scroll_to_text` this covers both
request-layer calls of an attempt: the `find_element` call and, on the failed
path, the `swipe_up()` call. -/
theorem transport_error_fatal (E : Type) :
    (∀ (timeout startTime : ℚ) (clock : Clock) (find : FindOracle E) (e : E)
        (k fuel : Nat), k < fuel →
        (∀ j, j < k →
          clock j - startTime < timeout ∧ find j = Except.ok false) →
        clock k - startTime < timeout → find k = Except.error e →
        waitForElement timeout startTime clock find fuel =
          some (Except.error e)) ∧
    (∀ (find : FindOracle E) (swipe : SwipeOracle E) (e : E) (k m : Nat),
        k < m →
        (∀ j, j < k →
          find j = Except.ok false ∧ swipe j = Except.ok ()) →
        find k = Except.error e →
        scrollToTextE find swipe m = Except.error e) ∧
    (∀ (find : FindOracle E) (swipe : SwipeOracle E) (e : E) (k m : Nat),
        k < m →
        (∀ j, j < k →
          find j = Except.ok false ∧ swipe j = Except.ok ()) →
        find k = Except.ok false → swipe k = Except.error e →
        scrollToTextE find swipe m = Except.error e) := by
  refine ⟨fun timeout startTime clock find e k fuel hk h hguard herr => ?_,
    fun find swipe e k m hk h herr => ?_,
    fun find swipe e k m hk h hfind herr => ?_⟩
  · have hskip := waitAux_skip timeout startTime clock find k fuel 0
      (Nat.le_of_lt hk) (fun j hj => by simpa using h j hj)
    have hf : fuel - k = (fuel - k - 1) + 1 := by omega
    rw [waitForElement, hskip, Nat.zero_add, hf, waitAux, if_pos hguard, herr]
  · have hskip := scrollAuxE_skip find swipe k m 0 (Nat.le_of_lt hk)
      (fun j hj => by simpa using h j hj)
    have hf : m - k = (m - k - 1) + 1 := by omega
    rw [scrollToTextE, hskip, Nat.zero_add, hf, scrollAuxE, herr]
  · have hskip := scrollAuxE_skip find swipe k m 0 (Nat.le_of_lt hk)
      (fun j hj => by simpa using h j hj)
    have hf : m - k = (m - k - 1) + 1 := by omega
    rw [scrollToTextE, hskip, Nat.zero_add, hf, scrollAuxE, hfind, herr]

/-- Sample oracle: the request layer raises on the very first attempt. -/
def findRaises : FindOracle String := fun _ => Except.error "connection refused"

/-- Sample oracle: every `find_element` call reports `success: false`, with a
string-typed error slot. -/
def findNeverS : FindOracle String := fun _ => Except.ok false

/-- Sample oracle: every swipe completes without raising. -/
def swipeOk : SwipeOracle String := fun _ => Except.ok ()

/-- Sample oracle: the request layer raises inside the first `swipe_up()`. -/
def swipeRaises : SwipeOracle String := fun _ => Except.error "connection refused"

theorem transport_error_fatal_witness :
    ((0 : Nat) < 5 ∧
      (∀ j, j < 0 →
        clockSeconds j - 0 < 2 ∧ findRaises j = Except.ok false) ∧
      clockSeconds 0 - 0 < 2 ∧ findRaises 0 = Except.error "connection refused" ∧
      waitForElement 2 0 clockSeconds findRaises 5 =
        some (Except.error "connection refused")) ∧
    ((0 : Nat) < 3 ∧
      (∀ j, j < 0 → findRaises j = Except.ok false ∧ swipeOk j = Except.ok ()) ∧
      findRaises 0 = Except.error "connection refused" ∧
      scrollToTextE findRaises swipeOk 3 = Except.error "connection refused") ∧
    ((0 : Nat) < 3 ∧
      (∀ j, j < 0 → findNeverS j = Except.ok false ∧ swipeOk j = Except.ok ()) ∧
      findNeverS 0 = Except.ok false ∧
      swipeRaises 0 = Except.error "connection refused" ∧
      scrollToTextE findNeverS swipeRaises 3 =
        Except.error "connection refused") := by
  have hguard : clockSeconds 0 - 0 < 2 := by norm_num [clockSeconds]
  exact ⟨⟨by omega, fun j hj => absurd hj (by omega), hguard, rfl,
      (transport_error_fatal String).1 2 0 clockSeconds findRaises
        "connection refused" 0 5 (by omega)
        (fun j hj => absurd hj (by omega)) hguard rfl⟩,
    ⟨by omega, fun j hj => absurd hj (by omega), rfl,
      (transport_error_fatal String).2.1 findRaises swipeOk
        "connection refused" 0 3 (by omega)
        (fun j hj => absurd hj (by omega)) rfl⟩,
    ⟨by omega, fun j hj => absurd hj (by omega), rfl, rfl,
      (transport_error_fatal String).2.2 findNeverS swipeRaises
        "connection refused" 0 3 (by omega)
        (fun j hj => absurd hj (by omega)) rfl rfl⟩⟩

/-! ### get_elements (`dumpAndFlatten`) -/

/-- The part of the `dump` response that `get_elements` reads: the truthiness
of `result.get("success")` and the `data` tree (absent or null maps to
`none`; the JSON-string re-parse of `data` is wire decoding, outside the
embedding). -/
structure DumpResponse where
  success : Bool
  data : Option ElementNode

/-- Embeds the response processing of `TermuxBridge.get_elements`: on
`success`, flatten the `data` tree; otherwise return the empty list. -/
def getElements (result : DumpResponse) : List ActionableElement :=
  if result.success then extractClickableOpt result.data else []

/-- Embeds `TermuxBridge.get_elements` end to end: issue the `dump` command
(via `dump_hierarchy`), propagate a raised `BridgeError`, and otherwise
process the response. -/
def getElementsOp {E : Type} (transport : Request → Except E DumpResponse) :
    Except E (List ActionableElement) :=
  match sendCommand transport "dump" none with
  | .error e => .error e
  | .ok result => .ok (getElements result)

/-- C5: for a dump response with `success` false, `get_elements` returns the
empty sequence rather than raising; for a response with `success` true it
returns the flattening (pre-order, actionable nodes only) of the response's
data tree. -/
theorem get_elements_spec :
    (∀ result : DumpResponse, result.success = false → getElements result = []) ∧
    (∀ result : DumpResponse, result.success = true →
        getElements result =
          ((preorderOpt result.data).filter ElementNode.actionable).map
            projectNode) := by
  constructor
  · intro r h
    simp [getElements, h]
  · intro r h
    simp only [getElements, h, if_pos]
    cases r.data with
    | none => rfl
    | some n => exact extractClickable_eq_filter n

/-- The hand-built tree of the spec's concrete scenario: root A with a
clickable child B (text "X") and a non-actionable child C whose own child D is
scrollable. -/
def nodeD : ElementNode := .mk none none (some "D") none none false true []

def nodeC : ElementNode := .mk none none (some "C") none none false false [nodeD]

def nodeB : ElementNode := .mk (some "X") none (some "B") none none true false []

def sampleTree : ElementNode :=
  .mk none none (some "A") none none false false [nodeB, nodeC]

theorem get_elements_spec_witness :
    ((DumpResponse.mk false (some sampleTree)).success = false ∧
      getElements ⟨false, some sampleTree⟩ = []) ∧
    ((DumpResponse.mk true (some sampleTree)).success = true ∧
      getElements ⟨true, some sampleTree⟩ =
        ((preorderOpt (some sampleTree)).filter ElementNode.actionable).map
          projectNode) :=
  ⟨⟨rfl, get_elements_spec.1 ⟨false, some sampleTree⟩ rfl⟩,
   ⟨rfl, get_elements_spec.2 ⟨true, some sampleTree⟩ rfl⟩⟩

/-! ### Optional match criteria (`find_element`, `tap_element`) -/

/-- Python truthiness of an optional string argument: `if text:` is false both
for `None` and for the empty string. -/
def strTruthy : Option String → Bool
  | none => false
  | some s => !(s == "")

/-- One `if arg: params[key] = arg` step of the params assembly. -/
def optStrParam (key : String) (v : Option String) : Params :=
  if strTruthy v then [(key, PValue.str (v.getD ""))] else []

/-- The params mapping assembled by `TermuxBridge.find_element`. -/
def findElementParams (text resourceId desc className : Option String) : Params :=
  optStrParam "text" text ++ optStrParam "resourceId" resourceId ++
    optStrParam "desc" desc ++ optStrParam "className" className

/-- The params mapping assembled by `TermuxBridge.tap_element` (which seeds
the mapping with `index`, default 0). -/
def tapElementParams (text resourceId desc className : Option String)
    (index : Int) : Params :=
  ("index", PValue.int index) ::
    (optStrParam "text" text ++ optStrParam "resourceId" resourceId ++
      optStrParam "desc" desc ++ optStrParam "className" className)

/-- Embeds `TermuxBridge.find_element`. -/
def findElement {ρ : Type} (transport : Request → ρ)
    (text resourceId desc className : Option String) : ρ :=
  sendCommand transport "find_element"
    (some (findElementParams text resourceId desc className))

/-- Embeds `TermuxBridge.tap_element`. -/
def tapElement {ρ : Type} (transport : Request → ρ)
    (text resourceId desc className : Option String) (index : Int) : ρ :=
  sendCommand transport "tap_element"
    (some (tapElementParams text resourceId desc className index))

/-- C6 counterexample: an explicitly empty `text` value produces exactly the
same outgoing params mapping as an unspecified one, so the remote side cannot
distinguish the two, contrary to the claim's rationale. -/
theorem find_element_empty_text_indistinct :
    findElementParams (some "") none none none =
      findElementParams none none none none ∧
    (some "" : Option String) ≠ (none : Option String) :=
  ⟨rfl, by simp⟩

/-- C6 (amended): `_send_command` sends exactly the action / params envelope —
params defaulting to the empty mapping when absent — to the `/cmd` path and
returns the transport's answer without inspecting `success`; for every
optional match criterion of `find_element` and `tap_element`, the key is
included in the outgoing params mapping iff the caller supplied a non-empty
value, so an explicitly empty value is omitted exactly like an unspecified
one (the remote side cannot tell them apart). -/
theorem send_command_envelope_spec :
    (∀ (ρ : Type) (transport : Request → ρ) (action : String)
        (params : Option Params),
        sendCommand transport action params =
          transport ⟨"/cmd", some ⟨action, params.getD []⟩⟩) ∧
    (∀ text resourceId desc className : Option String,
        ("text" ∈ (findElementParams text resourceId desc className).keys ↔
            strTruthy text = true) ∧
        ("resourceId" ∈ (findElementParams text resourceId desc className).keys ↔
            strTruthy resourceId = true) ∧
        ("desc" ∈ (findElementParams text resourceId desc className).keys ↔
            strTruthy desc = true) ∧
        ("className" ∈ (findElementParams text resourceId desc className).keys ↔
            strTruthy className = true)) ∧
    (∀ (text resourceId desc className : Option String) (index : Int),
        ("index" ∈ (tapElementParams text resourceId desc className index).keys) ∧
        ("text" ∈ (tapElementParams text resourceId desc className index).keys ↔
            strTruthy text = true) ∧
        ("resourceId" ∈
            (tapElementParams text resourceId desc className index).keys ↔
            strTruthy resourceId = true) ∧
        ("desc" ∈ (tapElementParams text resourceId desc className index).keys ↔
            strTruthy desc = true) ∧
        ("className" ∈
            (tapElementParams text resourceId desc className index).keys ↔
            strTruthy className = true)) := by
  refine ⟨fun _ _ _ _ => rfl, fun t r d c => ?_, fun t r d c i => ?_⟩
  · by_cases h1 : strTruthy t <;> by_cases h2 : strTruthy r <;>
      by_cases h3 : strTruthy d <;> by_cases h4 : strTruthy c <;>
      simp [findElementParams, optStrParam, Params.keys, h1, h2, h3, h4]
  · by_cases h1 : strTruthy t <;> by_cases h2 : strTruthy r <;>
      by_cases h3 : strTruthy d <;> by_cases h4 : strTruthy c <;>
      simp [tapElementParams, optStrParam, Params.keys, h1, h2, h3, h4]

/-! ### Directional swipe presets -/

/-- Embeds `TermuxBridge.swipe`: one `swipe` command with the five coordinate
and duration params, in the order the dictionary literal writes them. -/
def swipeOp {ρ : Type} (transport : Request → ρ)
    (startX startY endX endY duration : Int) : ρ :=
  sendCommand transport "swipe"
    (some [("startX", PValue.int startX), ("startY", PValue.int startY),
           ("endX", PValue.int endX), ("endY", PValue.int endY),
           ("duration", PValue.int duration)])

/-- The shared default `duration = 300` of the directional presets. -/
def defaultSwipeDuration : Int := 300

/-- Embeds `TermuxBridge.swipe_up`. -/
def swipeUp {ρ : Type} (transport : Request → ρ) (duration : Int) : ρ :=
  swipeOp transport 540 1500 540 500 duration

/-- Embeds `TermuxBridge.swipe_down`. -/
def swipeDown {ρ : Type} (transport : Request → ρ) (duration : Int) : ρ :=
  swipeOp transport 540 500 540 1500 duration

/-- Embeds `TermuxBridge.swipe_left`. -/
def swipeLeft {ρ : Type} (transport : Request → ρ) (duration : Int) : ρ :=
  swipeOp transport 900 960 180 960 duration

/-- Embeds `TermuxBridge.swipe_right`. -/
def swipeRight {ρ : Type} (transport : Request → ρ) (duration : Int) : ρ :=
  swipeOp transport 180 960 900 960 duration

/-- C8: each directional preset issues exactly one `swipe` command with its
fixed coordinate pair (up: (540,1500)→(540,500); down: reverse; left:
(900,960)→(180,960); right: reverse) and the given duration, whose shared
default is 300. -/
theorem swipe_presets_spec :
    (∀ (ρ : Type) (transport : Request → ρ) (d : Int),
        swipeUp transport d = transport ⟨"/cmd", some ⟨"swipe",
          [("startX", PValue.int 540), ("startY", PValue.int 1500),
           ("endX", PValue.int 540), ("endY", PValue.int 500),
           ("duration", PValue.int d)]⟩⟩) ∧
    (∀ (ρ : Type) (transport : Request → ρ) (d : Int),
        swipeDown transport d = transport ⟨"/cmd", some ⟨"swipe",
          [("startX", PValue.int 540), ("startY", PValue.int 500),
           ("endX", PValue.int 540), ("endY", PValue.int 1500),
           ("duration", PValue.int d)]⟩⟩) ∧
    (∀ (ρ : Type) (transport : Request → ρ) (d : Int),
        swipeLeft transport d = transport ⟨"/cmd", some ⟨"swipe",
          [("startX", PValue.int 900), ("startY", PValue.int 960),
           ("endX", PValue.int 180), ("endY", PValue.int 960),
           ("duration", PValue.int d)]⟩⟩) ∧
    (∀ (ρ : Type) (transport : Request → ρ) (d : Int),
        swipeRight transport d = transport ⟨"/cmd", some ⟨"swipe",
          [("startX", PValue.int 180), ("startY", PValue.int 960),
           ("endX", PValue.int 900), ("endY", PValue.int 960),
           ("duration", PValue.int d)]⟩⟩) ∧
    defaultSwipeDuration = 300 :=
  ⟨fun _ _ _ => rfl, fun _ _ _ => rfl, fun _ _ _ => rfl, fun _ _ _ => rfl, rfl⟩

/-! ### The lazy default instance (`get_bridge`) -/

/-- The client object built by `TermuxBridge.__init__`: a base URL derived
from host and port, and the request timeout (default 10). -/
structure TermuxBridge where
  baseUrl : String
  timeout : Int
deriving DecidableEq, Repr

/-- Embeds `TermuxBridge.__init__`. -/
def TermuxBridge.make (host : String) (port : Int) (timeout : Int) :
    TermuxBridge :=
  ⟨"http://" ++ host ++ ":" ++ toString port, timeout⟩

/-- Embeds `get_bridge`, with the module-level `_default_bridge` global made
an explicit state argument: the function returns the bridge handed to the
caller together with the updated global. -/
def getBridge (state : Option TermuxBridge) (host : String) (port : Int) :
    TermuxBridge × Option TermuxBridge :=
  match state with
  | none =>
      let b := TermuxBridge.make host port 10
      (b, some b)
  | some b => (b, some b)

/-- C9: `get_bridge` constructs the default `TermuxBridge` on the first call
(with that call's host and port and the constructor's default timeout) and
every later call returns that same instance and leaves the global unchanged,
silently ignoring the later call's host and port — the first call's
configuration wins for the process lifetime. -/
theorem get_bridge_singleton_spec :
    (∀ (host : String) (port : Int),
        getBridge none host port =
          (TermuxBridge.make host port 10,
            some (TermuxBridge.make host port 10))) ∧
    (∀ (b : TermuxBridge) (host : String) (port : Int),
        getBridge (some b) host port = (b, some b)) ∧
    (∀ (host : String) (port : Int) (host2 : String) (port2 : Int),
        (getBridge (getBridge none host port).2 host2 port2).1 =
          TermuxBridge.make host port 10) :=
  ⟨fun _ _ => rfl, fun _ _ _ => rfl, fun _ _ _ _ => rfl⟩

/-! ### is_ready -/

/-- The part of the `/status` response that `is_ready` reads: the value of
`result.get("status")` (absent maps to `none`). -/
structure StatusResponse where
  status : Option String
deriving DecidableEq, Repr

/-- Embeds `TermuxBridge.is_ready`: call `status()` and compare the reported
status with "ready"; a raised `BridgeError` is caught and turned into
`false`. -/
def isReady {E : Type} (transport : Request → Except E StatusResponse) : Bool :=
  match statusOp transport with
  | .ok result => result.status == some "ready"
  | .error _ => false

/-- C10: `is_ready` returns true iff the `/status` exchange succeeds and
reports status "ready", and it swallows a transport-level `BridgeError` into
`false`; every other operation of the embedding — the `/cmd` envelope all
commands go through, `get_elements`, `wait_for_element` and `scroll_to_text` —
propagates such an error instead. -/
theorem is_ready_spec (E : Type) :
    (∀ transport : Request → Except E StatusResponse,
        isReady transport = true ↔
          ∃ r, statusOp transport = Except.ok r ∧ r.status = some "ready") ∧
    (∀ e : E,
        isReady (fun _ => (Except.error e : Except E StatusResponse)) = false) ∧
    (∀ (R : Type) (e : E) (action : String) (params : Option Params),
        sendCommand (fun _ => (Except.error e : Except E R)) action params =
          Except.error e) ∧
    (∀ e : E, getElementsOp (fun _ => (Except.error e : Except E DumpResponse)) =
        Except.error e) ∧
    (∀ e : E, waitForElement 10 0 clockSeconds
        (fun _ => (Except.error e : Except E Bool)) 1 = some (Except.error e)) ∧
    (∀ e : E, scrollToText (fun _ => (Except.error e : Except E Bool)) 10 =
        Except.error e) := by
  refine ⟨fun transport => ?_, fun _ => rfl, fun _ _ _ _ => rfl, fun _ => rfl,
    fun e => ?_, fun _ => rfl⟩
  · cases h : statusOp transport with
    | error e => simp [isReady, h]
    | ok r => simp [isReady, h, beq_iff_eq]
  · rw [waitForElement, waitAux,
      if_pos (show clockSeconds 0 - 0 < 10 by norm_num [clockSeconds])]

/-! ### The mock dispatcher (`mock_server.py`) -/

/-- One match record inside the mock's `find_element` data payload:
`\x7b"text": params.get('text', ''), "bounds": \x7b"centerX": 540,
"centerY": 960\x7d\x7d`. -/
structure FoundMatch where
  text : PValue
  centerX : Int
  centerY : Int

/-- The `data` payload of a mock response: a list of matches for
`find_element`, or the fixed UI tree for `dump`. -/
inductive MockData where
  | matches (items : List FoundMatch)
  | tree (t : ElementNode)

/-- A response produced by `MockBridgeHandler.mock_execute`. -/
structure MockResponse where
  success : Bool
  message : Option String
  data : Option MockData
  error : Option String

/-- Python `str()` of a params value as interpolated by the mock's f-strings
(`None` for an absent key). -/
def pyStr : Option PValue → String
  | none => "None"
  | some (.str s) => s
  | some (.int n) => toString n

/-- Python truthiness of a params value. -/
def pvTruthy : PValue → Bool
  | .str s => !(s == "")
  | .int n => !(n == 0)

/-- Python `a or b` over two optional params values. -/
def pyOr (a b : Option PValue) : Option PValue :=
  match a with
  | some v => if pvTruthy v then some v else b
  | none => b

/-- The fixed tree the mock returns for `dump`. -/
def mockDumpTree : ElementNode :=
  .mk none none (some "android.widget.FrameLayout") none none false false
    [.mk (some "测试元素") none (some "android.widget.LinearLayout") none none
      true false []]

/-- The `responses` dictionary of `mock_execute`, in source order. -/
def mockResponses (params : Params) : List (String × MockResponse) :=
  [("tap", ⟨true, some ("已点击坐标 (" ++ pyStr (List.lookup "x" params) ++
      ", " ++ pyStr (List.lookup "y" params) ++ ")"), none, none⟩),
   ("swipe", ⟨true, some ("已滑动 (" ++ pyStr (List.lookup "startX" params) ++
      ", " ++ pyStr (List.lookup "startY" params) ++ ") → (" ++
      pyStr (List.lookup "endX" params) ++ ", " ++
      pyStr (List.lookup "endY" params) ++ ")"), none, none⟩),
   ("long_press", ⟨true, some ("已长按 (" ++ pyStr (List.lookup "x" params) ++
      ", " ++ pyStr (List.lookup "y" params) ++ ")"), none, none⟩),
   ("tap_element", ⟨true, some ("已点击元素: " ++
      pyStr (pyOr (List.lookup "text" params)
        (List.lookup "resourceId" params))), none, none⟩),
   ("input_text", ⟨true, some ("已输入文本: " ++
      pyStr (List.lookup "text" params)), none, none⟩),
   ("back", ⟨true, some "已执行返回操作", none, none⟩),
   ("home", ⟨true, some "已执行Home操作", none, none⟩),
   ("recent", ⟨true, some "已打开最近任务", none, none⟩),
   ("notifications", ⟨true, some "已打开通知栏", none, none⟩),
   ("quick_settings", ⟨true, some "已打开快速设置", none, none⟩),
   ("find_element", ⟨true, some ("找到元素: " ++
      pyStr (pyOr (List.lookup "text" params)
        (List.lookup "resourceId" params))),
      some (.matches [⟨(List.lookup "text" params).getD (PValue.str ""),
        540, 960⟩]), none⟩),
   ("dump", ⟨true, some "已获取界面结构", some (.tree mockDumpTree), none⟩)]

/-- The keys of the mock's `responses` dictionary: the action vocabulary the
mock recognizes. -/
def mockKnownActions : List String :=
  ["tap", "swipe", "long_press", "tap_element", "input_text", "back", "home",
   "recent", "notifications", "quick_settings", "find_element", "dump"]

/-- Embeds `MockBridgeHandler.mock_execute`: `responses.get(action,
fallback)`, where the fallback is the unknown-command error response. -/
def mockExecute (action : String) (params : Params) : MockResponse :=
  (List.lookup action (mockResponses params)).getD
    ⟨false, none, none, some ("未知命令: " ++ action)⟩

theorem lookup_eq_none_of_not_mem_keys {β : Type} :
    ∀ (l : List (String × β)) (a : String), a ∉ l.map Prod.fst →
      List.lookup a l = none := by
  intro l
  induction l with
  | nil => intro a _; rfl
  | cons p rest ih =>
      intro a h
      cases p with
      | mk k v =>
          simp only [List.map_cons, List.mem_cons, not_or] at h
          have hne : (a == k) = false := by
            simp only [beq_eq_false_iff_ne]
            exact h.1
          simp [List.lookup, hne, ih a h.2]

/-- C7 counterexample: for the unrecognized action "frobnicate" the mock
dispatcher's fallback error string is the Chinese `未知命令: frobnicate`, not
the `unknown command: frobnicate` the claim quotes. -/
theorem mock_unknown_action_chinese_error :
    (mockExecute "frobnicate" []).success = false ∧
    (mockExecute "frobnicate" []).error = some "未知命令: frobnicate" ∧
    (mockExecute "frobnicate" []).error ≠ some "unknown command: frobnicate" :=
  ⟨by decide, by decide, by decide⟩

/-- C7 (amended): for every action string outside the mock's recognized
vocabulary, `mock_execute` returns the failure response whose error text is
`未知命令: <action>` (Chinese for "unknown command"); and the client never
rejects an action before sending — `_send_command` forwards any action string
verbatim in the `/cmd` envelope. -/
theorem mock_unknown_action_spec :
    (∀ action : String, action ∉ mockKnownActions → ∀ params : Params,
        mockExecute action params =
          ⟨false, none, none, some ("未知命令: " ++ action)⟩) ∧
    (∀ (ρ : Type) (transport : Request → ρ) (action : String)
        (params : Option Params),
        sendCommand transport action params =
          transport ⟨"/cmd", some ⟨action, params.getD []⟩⟩) := by
  constructor
  · intro action h params
    have hkeys : (mockResponses params).map Prod.fst = mockKnownActions := rfl
    have hnone := lookup_eq_none_of_not_mem_keys (mockResponses params) action
      (by rw [hkeys]; exact h)
    rw [mockExecute, hnone]
    rfl
  · intro _ _ _ _
    rfl

theorem mock_unknown_action_spec_witness :
    ("open_app" ∉ mockKnownActions) ∧
    mockExecute "open_app" [] =
      ⟨false, none, none, some ("未知命令: " ++ "open_app")⟩ :=
  ⟨by decide, mock_unknown_action_spec.1 "open_app" (by decide) []⟩

end Bridge
